import Mathlib

/-!
Verification development for the Ocean provider gateway core
(`ocean_provider/utils/url.py`, `ocean_provider/utils/util.py`,
`ocean_provider/routes/consume.py`, `ocean_provider/routes/compute.py`).

The Python code is shallowly embedded: pure helpers become Lean functions,
the DNS resolver / upstream HTTP session / signature verifier become explicit
oracle parameters, the nonce store becomes explicit state passing, and
Python exceptions become `Except` values.  Strings are processed through
their character lists so that every definition evaluates by kernel
reduction.
-/

/- ### Python string primitives -/

/-- Python `str.split(sep)` for a one-character separator: always returns a
non-empty list; `"".split(sep) == [""]`. -/
def splitChar (sep : Char) : List Char → List (List Char)
  | [] => [[]]
  | c :: cs =>
    match splitChar sep cs with
    | [] => [[c]]
    | h :: t => if c = sep then [] :: h :: t else (c :: h) :: t

/-- Truthiness of a Python value that is either `None` or a string:
`None` and `""` are falsy. -/
def truthy : Option String → Bool
  | none => false
  | some s => !(s == "")

/- ### Model of the Python `ipaddress` library (the subset the source uses) -/

/-- An IP address as `ipaddress.ip_address` produces it: either four IPv4
octets or eight 16-bit IPv6 groups. -/
inductive IPAddr where
  | v4 (a b c d : Nat)
  | v6 (groups : List Nat)
deriving DecidableEq

/-- Is `cs` a decimal octet as accepted by `IPv4Address`: 1-3 digits,
value ≤ 255, no leading zero. -/
def isV4Octet (cs : List Char) : Bool :=
  cs ≠ [] && cs.length ≤ 3 && cs.all Char.isDigit
    && (cs.length == 1 || cs.headD '0' ≠ '0')

def digitsToNat (cs : List Char) : Nat :=
  cs.foldl (fun acc c => acc * 10 + (c.toNat - 48)) 0

/-- `ipaddress.IPv4Address(s)`: dotted quad of valid octets, each ≤ 255. -/
def parseIPv4 (cs : List Char) : Option IPAddr :=
  match splitChar '.' cs with
  | [p1, p2, p3, p4] =>
    if [p1, p2, p3, p4].all (fun p => isV4Octet p && digitsToNat p ≤ 255) then
      some (.v4 (digitsToNat p1) (digitsToNat p2) (digitsToNat p3) (digitsToNat p4))
    else none
  | _ => none

def isHexChar (c : Char) : Bool :=
  c.isDigit || ('a' ≤ c && c ≤ 'f') || ('A' ≤ c && c ≤ 'F')

def hexVal (c : Char) : Nat :=
  if c.isDigit then c.toNat - 48
  else if 'a' ≤ c && c ≤ 'f' then c.toNat - 87
  else c.toNat - 55

/-- A 1-4 digit hexadecimal IPv6 group. -/
def isV6Group (cs : List Char) : Bool :=
  cs ≠ [] && cs.length ≤ 4 && cs.all isHexChar

def hexToNat (cs : List Char) : Nat :=
  cs.foldl (fun acc c => acc * 16 + hexVal c) 0

/-- Split an IPv6 text at the first `::`, if any, failing when `::` occurs
twice. -/
def splitColonColon (cs : List Char) : Option (Option (List Char × List Char)) :=
  match cs with
  | [] => some none
  | [c] => some (if c = ':' then none else none)
  | ':' :: ':' :: rest =>
    match splitColonColon rest with
    | some none => some (some ([], rest))
    | _ => none
  | c :: rest =>
    match splitColonColon rest with
    | some none => some none
    | some (some (l, r)) => some (some (c :: l, r))
    | none => none

/-- Groups of an uncompressed IPv6 side; `""` yields no groups. -/
def v6SideGroups (cs : List Char) : Option (List Nat) :=
  if cs = [] then some []
  else
    let parts := splitChar ':' cs
    if parts.all isV6Group then some (parts.map hexToNat) else none

/-- `ipaddress.IPv6Address(s)` (modeled subset: plain hexadecimal groups
with at most one `::` compression; embedded-IPv4 tails and zone ids are
rejected). -/
def parseIPv6 (cs : List Char) : Option IPAddr :=
  if !cs.contains ':' then none
  else
    match splitColonColon cs with
    | none => none
    | some none =>
      match v6SideGroups cs with
      | some gs => if gs.length = 8 then some (.v6 gs) else none
      | none => none
    | some (some (l, r)) =>
      match v6SideGroups l, v6SideGroups r with
      | some gl, some gr =>
        if gl.length + gr.length ≤ 7 then
          some (.v6 (gl ++ List.replicate (8 - gl.length - gr.length) 0 ++ gr))
        else none
      | _, _ => none

/-- `ipaddress.ip_address(s)` for strings: try IPv4, then IPv6; `none`
models the `ValueError`. -/
def ip_address (s : String) : Option IPAddr :=
  match parseIPv4 s.data with
  | some ip => some ip
  | none => parseIPv6 s.data

/-- `ip.is_loopback`: `127.0.0.0/8` or `::1`. -/
def IPAddr.is_loopback : IPAddr → Bool
  | .v4 a _ _ _ => a == 127
  | .v6 gs => gs == [0, 0, 0, 0, 0, 0, 0, 1]

/-- `ip.is_private` (the registry of private networks used by the Python
`ipaddress` module). -/
def IPAddr.is_private : IPAddr → Bool
  | .v4 a b c d =>
    a == 0 || a == 10 || a == 127 || (a == 169 && b == 254)
      || (a == 172 && 16 ≤ b && b ≤ 31)
      || (a == 192 && b == 0 && c == 0 && d ≤ 7)
      || (a == 192 && b == 0 && c == 0 && (d == 170 || d == 171))
      || (a == 192 && b == 0 && c == 2) || (a == 192 && b == 168)
      || (a == 198 && (b == 18 || b == 19)) || (a == 198 && b == 51 && c == 100)
      || (a == 203 && b == 0 && c == 113) || 240 ≤ a
  | .v6 gs =>
    gs == [0, 0, 0, 0, 0, 0, 0, 1] || gs == [0, 0, 0, 0, 0, 0, 0, 0]
      || gs.take 6 == [0, 0, 0, 0, 0, 0xffff]
      || gs.take 4 == [0x100, 0, 0, 0]
      || (gs.headD 0 == 0x2001 && gs.getD 1 0 < 0x200)
      || (gs.headD 0 == 0x2001 && gs.getD 1 0 == 0xdb8)
      || (0xfc00 ≤ gs.headD 0 && gs.headD 0 ≤ 0xfdff)
      || (0xfe80 ≤ gs.headD 0 && gs.headD 0 ≤ 0xfebf)

/-- `ip.is_reserved` (the IETF-reserved blocks used by the Python
`ipaddress` module). -/
def IPAddr.is_reserved : IPAddr → Bool
  | .v4 a _ _ _ => 240 ≤ a
  | .v6 gs =>
    gs.headD 0 < 0x2000 || (0x4000 ≤ gs.headD 0 && gs.headD 0 < 0xfc00)
      || (0xfe00 ≤ gs.headD 0 && gs.headD 0 ≤ 0xfe7f)

/- ### Model of `urllib.parse.urlparse` (scheme and netloc only) -/

def isSchemeChar (c : Char) : Bool :=
  c.isAlpha || c.isDigit || c == '+' || c == '-' || c == '.'

/-- Split at the first occurrence of `sep`, if any. -/
def splitAtFirst (sep : Char) : List Char → Option (List Char × List Char)
  | [] => none
  | c :: cs =>
    if c = sep then some ([], cs)
    else
      match splitAtFirst sep cs with
      | some (l, r) => some (c :: l, r)
      | none => none

/-- `urlparse(url).scheme` and the remainder of the url after the scheme:
a scheme is recognized before the first `:` when it is non-empty, starts
with a letter and uses only scheme characters. -/
def urlparse_scheme_rest (url : String) : String × List Char :=
  match splitAtFirst ':' url.data with
  | some (pre, post) =>
    if pre ≠ [] && (pre.headD ' ').isAlpha && pre.all isSchemeChar then
      (String.mk (pre.map Char.toLower), post)
    else ("", url.data)
  | none => ("", url.data)

/-- `urlparse(url).netloc`: present only when the remainder after the
scheme starts with `//`; runs until `/`, `?` or `#`. -/
def urlparse_netloc (url : String) : String :=
  match (urlparse_scheme_rest url).2 with
  | '/' :: '/' :: rest =>
    String.mk (rest.takeWhile (fun c => !(c == '/' || c == '?' || c == '#')))
  | _ => ""

def urlparse_scheme (url : String) : String := (urlparse_scheme_rest url).1

/- ### `ocean_provider/utils/url.py`: the SafeURLValidator -/

/-- The configuration surface the embedded code reads
(`get_config()` fields). -/
structure Config where
  allow_non_public_ip : Bool
  requests_timeout : Nat
  requests_chunk_size : Nat
deriving DecidableEq

/-- The DNS resolver as an oracle: domain and record type to the textual
records; `none` models any `dns.resolver` exception (no such record, or any
other resolver error), as caught by `_get_records`. -/
abbrev DnsOracle := String → String → Option (List String)

/-- `_get_records(domain, record_type)`: consult the resolver, turning every
resolver exception into `None`. -/
def _get_records (dns : DnsOracle) (domain record_type : String) :
    Option (List String) :=
  dns domain record_type

/-- `is_ip(address)`: `address.replace(".", "").isnumeric()`.  Removing all
dots and testing `isnumeric` is modeled on ASCII digits. -/
def is_ip (address : String) : Bool :=
  let stripped := address.data.filter (fun c => !(c == '.'))
  stripped ≠ [] && stripped.all Char.isDigit

/-- `validate_dns_record(record, domain, record_type)` for a textual record
value (DNS answers are embedded as their `to_text().strip()` strings, so the
`isinstance(record, str)` branch and the rdata branch coincide). -/
def validate_dns_record (cfg : Config) (record domain record_type : String) :
    Bool :=
  match ip_address record with
  | none => false
  | some ip =>
    if ip.is_private || ip.is_reserved || ip.is_loopback then
      cfg.allow_non_public_ip
    else true

/-- `validate_dns_records(domain, records, record_type)`: `None` (a failed
resolution) yields `True`; otherwise every record must validate. -/
def validate_dns_records (cfg : Config) (domain : String)
    (records : Option (List String)) (record_type : String) : Bool :=
  match records with
  | none => true
  | some rs => rs.all (fun r => validate_dns_record cfg r domain record_type)

/-- The character-by-character iteration the source performs when it passes
the bare domain string where a record set is expected
(`validate_dns_records(domain, domain, "")`): iterating a Python string
yields its one-character substrings. -/
def stringAsRecords (domain : String) : List String :=
  domain.data.map (fun c => String.mk [c])

/-- `is_safe_domain(domain)`: validate the A and AAAA records, and when the
domain looks numeric additionally validate the literal itself -- passing the
string `domain` as the record set, which Python iterates character by
character. -/
def is_safe_domain (dns : DnsOracle) (cfg : Config) (domain : String) : Bool :=
  let ip_v4_records := _get_records dns domain "A"
  let ip_v6_records := _get_records dns domain "AAAA"
  let result := validate_dns_records cfg domain ip_v4_records "A"
    && validate_dns_records cfg domain ip_v6_records "AAAA"
  if !is_ip domain then result
  else result && validate_dns_records cfg domain (some (stringAsRecords domain)) ""

/-- `is_safe_schema(url)`: both a scheme and a netloc must be present. -/
def is_safe_schema (url : String) : Bool :=
  !(urlparse_scheme url == "") && !(urlparse_netloc url == "")

/-- `is_safe_url(url)`. -/
def is_safe_url (dns : DnsOracle) (cfg : Config) (url : String) : Bool :=
  if !is_safe_schema url then false
  else is_safe_domain dns cfg (urlparse_netloc url)

/- ### SHA-256 (model of `hashlib.sha256`) -/

def add32 (a b : Nat) : Nat := (a + b) % 4294967296

def rotr (n x : Nat) : Nat :=
  ((x >>> n) ||| ((x % (1 <<< n)) <<< (32 - n))) % 4294967296

def shaCh (x y z : Nat) : Nat := (x &&& y) ^^^ ((x ^^^ 4294967295) &&& z)

def shaMaj (x y z : Nat) : Nat := (x &&& y) ^^^ (x &&& z) ^^^ (y &&& z)

def bigSigma0 (x : Nat) : Nat := rotr 2 x ^^^ rotr 13 x ^^^ rotr 22 x

def bigSigma1 (x : Nat) : Nat := rotr 6 x ^^^ rotr 11 x ^^^ rotr 25 x

def smallSigma0 (x : Nat) : Nat := rotr 7 x ^^^ rotr 18 x ^^^ (x >>> 3)

def smallSigma1 (x : Nat) : Nat := rotr 17 x ^^^ rotr 19 x ^^^ (x >>> 10)

def shaK : List Nat :=
  [1116352408, 1899447441, 3049323471, 3921009573, 961987163,
   1508970993, 2453635748, 2870763221, 3624381080, 310598401,
   607225278, 1426881987, 1925078388, 2162078206, 2614888103,
   3248222580, 3835390401, 4022224774, 264347078, 604807628,
   770255983, 1249150122, 1555081692, 1996064986, 2554220882,
   2821834349, 2952996808, 3210313671, 3336571891, 3584528711,
   113926993, 338241895, 666307205, 773529912, 1294757372,
   1396182291, 1695183700, 1986661051, 2177026350, 2456956037,
   2730485921, 2820302411, 3259730800, 3345764771, 3516065817,
   3600352804, 4094571909, 275423344, 430227734, 506948616,
   659060556, 883997877, 958139571, 1322822218, 1537002063,
   1747873779, 1955562222, 2024104815, 2227730452, 2361852424,
   2428436474, 2756734187, 3204031479, 3329325298]

def shaHinit : List Nat :=
  [1779033703, 3144134277, 1013904242, 2773480762,
   1359893119, 2600822924, 528734635, 1541459225]

/-- Big-endian byte expansion of `n` on `k` bytes. -/
def bytesBE (k n : Nat) : List Nat :=
  (List.range k).map (fun i => (n >>> (8 * (k - 1 - i))) % 256)

/-- SHA-256 padding: `0x80`, zeros to 56 mod 64, then the bit length on
8 bytes. -/
def shaPad (msg : List Nat) : List Nat :=
  msg ++ [128] ++ List.replicate ((120 - (msg.length + 1) % 64) % 64) 0
    ++ bytesBE 8 (8 * msg.length)

/-- Big-endian 32-bit words from bytes. -/
def toWords : List Nat → List Nat
  | a :: b :: c :: d :: rest => (((a * 256 + b) * 256 + c) * 256 + d) :: toWords rest
  | _ => []

/-- One message-schedule extension step; the schedule is kept reversed
(most recent word first). -/
def extendOnce (wrev : List Nat) : List Nat :=
  add32 (add32 (smallSigma1 (wrev.getD 1 0)) (wrev.getD 6 0))
      (add32 (smallSigma0 (wrev.getD 14 0)) (wrev.getD 15 0)) :: wrev

/-- The 64-word message schedule of one block. -/
def shaSchedule (w16 : List Nat) : List Nat :=
  ((List.range 48).foldl (fun acc _ => extendOnce acc) w16.reverse).reverse

/-- One round of the compression function. -/
def shaRound (st : Nat × Nat × Nat × Nat × Nat × Nat × Nat × Nat)
    (kw : Nat × Nat) : Nat × Nat × Nat × Nat × Nat × Nat × Nat × Nat :=
  let (a, b, c, d, e, f, g, h) := st
  let t1 := add32 (add32 (add32 h (bigSigma1 e)) (add32 (shaCh e f g) kw.1)) kw.2
  let t2 := add32 (bigSigma0 a) (shaMaj a b c)
  (add32 t1 t2, a, b, c, add32 d t1, e, f, g)

/-- Compress one 64-byte block into the running hash value. -/
def compressBlock (h : List Nat) (block : List Nat) : List Nat :=
  let w := shaSchedule (toWords block)
  let st0 := (h.getD 0 0, h.getD 1 0, h.getD 2 0, h.getD 3 0,
              h.getD 4 0, h.getD 5 0, h.getD 6 0, h.getD 7 0)
  let r := (shaK.zip w).foldl (fun st kw => shaRound st (kw.2, kw.1)) st0
  [add32 (h.getD 0 0) r.1, add32 (h.getD 1 0) r.2.1,
   add32 (h.getD 2 0) r.2.2.1, add32 (h.getD 3 0) r.2.2.2.1,
   add32 (h.getD 4 0) r.2.2.2.2.1, add32 (h.getD 5 0) r.2.2.2.2.2.1,
   add32 (h.getD 6 0) r.2.2.2.2.2.2.1, add32 (h.getD 7 0) r.2.2.2.2.2.2.2]

/-- Split a list into chunks of `n` elements (the last one possibly
shorter); `requests`' `iter_content(chunk_size=n)`. -/
def chunkList (n : Nat) (l : List α) : List (List α) :=
  if h : n = 0 ∨ l.length = 0 then []
  else l.take n :: chunkList n (l.drop n)
termination_by l.length
decreasing_by
  simp only [not_or] at h
  have hn : 0 < n := Nat.pos_of_ne_zero h.1
  have hl : 0 < l.length := Nat.pos_of_ne_zero h.2
  simp only [List.length_drop]
  omega

/-- The eight 32-bit words of the SHA-256 digest of a byte sequence. -/
def sha256Words (msg : List Nat) : List Nat :=
  (chunkList 64 (shaPad msg)).foldl compressBlock shaHinit

def hexDigitChar (n : Nat) : Char :=
  match n % 16 with
  | 0 => '0' | 1 => '1' | 2 => '2' | 3 => '3' | 4 => '4' | 5 => '5'
  | 6 => '6' | 7 => '7' | 8 => '8' | 9 => '9' | 10 => 'a' | 11 => 'b'
  | 12 => 'c' | 13 => 'd' | 14 => 'e' | _ => 'f'

/-- Eight lowercase hex characters of a 32-bit word. -/
def hex8 (n : Nat) : List Char :=
  [hexDigitChar (n / 268435456), hexDigitChar (n / 16777216),
   hexDigitChar (n / 1048576), hexDigitChar (n / 65536),
   hexDigitChar (n / 4096), hexDigitChar (n / 256),
   hexDigitChar (n / 16), hexDigitChar n]

/-- `hashlib.sha256(msg).hexdigest()`. -/
def sha256Hex (msg : List Nat) : String :=
  String.mk ((sha256Words msg).map hex8).join

/-- `hashlib`'s incremental interface: `update` concatenates, `hexdigest`
hashes everything fed so far. -/
def sha_update (st chunk : List Nat) : List Nat := st ++ chunk

/- ### HTTP model -/

/-- An upstream HTTP response as `requests` presents it: status code,
case-insensitive header map, body bytes. -/
structure HttpResponse where
  status_code : Nat
  headers : List (String × String)
  body : List Nat
deriving DecidableEq

/-- Lowercasing through the character list (kernel-reducible counterpart
of `str.lower()`). -/
def lowerStr (s : String) : String := String.mk (s.data.map Char.toLower)

/-- `response.headers.get(name)`: `requests` header maps are
case-insensitive. -/
def HttpResponse.header (r : HttpResponse) (name : String) : Option String :=
  (r.headers.find? (fun kv => lowerStr kv.1 == lowerStr name)).map (fun kv => kv.2)

inductive Method where
  | head
  | options
  | get
deriving DecidableEq

/-- One upstream request issued by the probe. -/
structure ReqLog where
  method : Method
  url : String
deriving DecidableEq

/-- The upstream network as an oracle: method and url to response;
`.error ()` models a `requests.exceptions.RequestException`. -/
abbrev Upstream := Method → String → Except Unit HttpResponse

/-- The early-return condition of the probe loop: status 200 with
(Content-Type or Content-Range) and Content-Length, and no checksum
requested. -/
def probeSufficient (with_checksum : Bool) (r : HttpResponse) : Bool :=
  !with_checksum && r.status_code == 200
    && (truthy (r.header "Content-Type") || truthy (r.header "Content-Range"))
    && truthy (r.header "Content-Length")

/-- `_get_result_from_url(url, with_checksum)`: besides the result, the
embedding returns the list of upstream requests actually issued.  HEAD and
OPTIONS are tried first; without checksum the fallback is a streamed GET;
with checksum a streamed GET is hashed chunk by chunk
(`raise_for_status` turns a status >= 400 into an exception). -/
def _get_result_from_url (env : Upstream) (cfg : Config) (url : String)
    (with_checksum : Bool) :
    List ReqLog × Except Unit (HttpResponse × List (String × String)) :=
  match env .head url with
  | .error e => ([⟨.head, url⟩], .error e)
  | .ok r1 =>
    if probeSufficient with_checksum r1 then
      ([⟨.head, url⟩], .ok (r1, []))
    else
      match env .options url with
      | .error e => ([⟨.head, url⟩, ⟨.options, url⟩], .error e)
      | .ok r2 =>
        if probeSufficient with_checksum r2 then
          ([⟨.head, url⟩, ⟨.options, url⟩], .ok (r2, []))
        else
          match env .get url with
          | .error e =>
            ([⟨.head, url⟩, ⟨.options, url⟩, ⟨.get, url⟩], .error e)
          | .ok r3 =>
            if !with_checksum then
              ([⟨.head, url⟩, ⟨.options, url⟩, ⟨.get, url⟩], .ok (r3, []))
            else if 400 ≤ r3.status_code then
              ([⟨.head, url⟩, ⟨.options, url⟩, ⟨.get, url⟩], .error ())
            else
              let sha := (chunkList cfg.requests_chunk_size r3.body).foldl
                sha_update []
              ([⟨.head, url⟩, ⟨.options, url⟩, ⟨.get, url⟩],
               .ok (r3, [("checksum", sha256Hex sha), ("checksumType", "sha256")]))

/-- The content length `check_url_details` reports: when `Content-Length`
is falsy but `Content-Range` is truthy, the piece of the range after the
first dash (an `IndexError` on a dashless range is swallowed). -/
def derived_content_length (result : HttpResponse) : Option String :=
  let content_length := result.header "Content-Length"
  let content_range := result.header "Content-Range"
  if !truthy content_length && truthy content_range then
    let parts := splitChar '-' (content_range.getD "").data
    if 2 ≤ parts.length then some (String.mk (parts.getD 1 []))
    else content_length
  else content_length

/-- The content type `check_url_details` reports: a truthy `Content-Type`
header truncated at the first `;`. -/
def derived_content_type (result : HttpResponse) : Option String :=
  let content_type := result.header "Content-Type"
  if truthy content_type then
    some (String.mk ((splitChar ';' (content_type.getD "").data).headD []))
  else content_type

/-- `check_url_details(url, with_checksum)`, with the issued upstream
requests exposed alongside the `(valid, details)` result. -/
def check_url_details (dns : DnsOracle) (cfg : Config) (env : Upstream)
    (url : String) (with_checksum : Bool) :
    List ReqLog × (Bool × List (String × String)) :=
  if !is_safe_url dns cfg url then ([], (false, []))
  else
    match _get_result_from_url env cfg url with_checksum with
    | (tr, .error _) => (tr, (false, []))
    | (tr, .ok (result, extra_data)) =>
      if result.status_code == 200 then
        let content_length := derived_content_length result
        let content_type := derived_content_type result
        if truthy content_type || truthy content_length then
          (tr, (true, [("contentLength", content_length.getD ""),
                       ("contentType", content_type.getD "")] ++ extra_data))
        else (tr, (false, []))
      else (tr, (false, []))

/- ### JSON values and web responses -/

/-- A JSON value (`json.loads` output / `json.dumps` input). -/
inductive Json where
  | null
  | bool (b : Bool)
  | num (n : Int)
  | str (s : String)
  | arr (elems : List Json)
  | obj (fields : List (String × Json))

/-- The keys of a JSON object; `[]` for every other value. -/
def Json.objKeys : Json → List String
  | .obj kvs => kvs.map (fun kv => kv.1)
  | _ => []

def Json.isObj : Json → Bool
  | .obj _ => true
  | _ => false

/-- The top-level keys of the job-status entries of a body: for an array,
the keys of its object elements; for a bare object, its keys. -/
def Json.jobKeys : Json → List String
  | .arr l => (l.map Json.objKeys).join
  | j => j.objKeys

/-- The body of a Flask response as the routes build it: either bytes
relayed from upstream (`.relay`, carrying the parse of those bytes, or
`.error ()` when they are not JSON), a `json.dumps` of a computed value, or
the chunked stream of the download gateway. -/
inductive HttpBody where
  | relay (c : Except Unit Json)
  | json (j : Json)
  | stream (chunks : List (List Nat))

def HttpBody.jobKeys : HttpBody → List String
  | .relay (.ok j) => j.jobKeys
  | .relay (.error _) => []
  | .json j => j.jobKeys
  | .stream _ => []

/-- A Flask `Response`: status, headers, optional content type, body. -/
structure WebResponse where
  status : Nat
  headers : List (String × String)
  content_type : Option String
  body : HttpBody

/-- `service_unavailable(error, context)`: the generic 503 failure envelope
`{"error": ..., "context": ...}`. -/
def service_unavailable (error : String) (context : Json) : WebResponse :=
  ⟨503, [("content-type", "application/json")], none,
   .json (.obj [("error", .str error), ("context", context)])⟩

/- ### Models of `os.path.splitext`, `mimetypes` and `cgi.parse_header` -/

/-- `os.path.splitext(p)[1]`: the extension starting at the last dot of the
final path component, except that leading dots of that component never start
an extension. -/
def splitext_ext (p : String) : String :=
  let base := (splitChar '/' p.data).getLastD []
  let stem := base.dropWhile (fun c => c == '.')
  match splitAtFirst '.' stem.reverse with
  | some (revExt, _) => String.mk ('.' :: revExt.reverse)
  | none => ""

/-- The extension-to-type table of the Python `mimetypes` module (the
entries relevant to this development; one extension per type so that
`guess_extension` is deterministic). -/
def mimetypes_types_map : List (String × String) :=
  [(".txt", "text/plain"), (".csv", "text/csv"), (".html", "text/html"),
   (".json", "application/json"), (".pdf", "application/pdf"),
   (".png", "image/png"), (".xml", "text/xml"), (".zip", "application/zip")]

/-- `mimetypes.guess_type(filename)[0]`. -/
def guess_type (filename : String) : Option String :=
  ((mimetypes_types_map.find?
      (fun kv => kv.1 == lowerStr (splitext_ext filename))).map
    (fun kv => kv.2))

/-- `mimetypes.guess_extension(tp)`. -/
def guess_extension (tp : String) : Option String :=
  (mimetypes_types_map.find? (fun kv => kv.2 == tp)).map (fun kv => kv.1)

/-- Strip leading and trailing spaces and tabs. -/
def pyStrip (cs : List Char) : List Char :=
  (cs.dropWhile (fun c => c == ' ' || c == '\t')).reverse.dropWhile
    (fun c => c == ' ' || c == '\t') |>.reverse

/-- Strip one pair of surrounding double quotes. -/
def stripQuotes (cs : List Char) : List Char :=
  match cs with
  | '"' :: rest =>
    if rest ≠ [] && rest.getLastD ' ' = '"' then rest.dropLast else cs
  | _ => cs

/-- `cgi.parse_header(line)[1].get(key)` (modeled subset: parameters are
split on `;`, keys lowercased, values unquoted). -/
def parse_header_param (line key : String) : Option String :=
  let parts := (splitChar ';' line.data).drop 1
  let params := parts.filterMap (fun p =>
    match splitAtFirst '=' p with
    | some (k, v) =>
      some (String.mk ((pyStrip k).map Char.toLower),
            String.mk (stripQuotes (pyStrip v)))
    | none => none)
  (params.find? (fun kv => kv.1 == key)).map (fun kv => kv.2)

/- ### `ocean_provider/utils/util.py`: the DownloadGateway -/

/-- The inbound Flask request: `range` models `request.range`, Flask's
parsed Range header, which is `None` when the header is absent (its raw
text is what `request.headers.get("range")` returns). -/
structure FlaskRequest where
  range : Option String

/-- One fetch issued through `requests_session.get` by the gateway. -/
structure FetchLog where
  url : String
  headers : List (String × String)
deriving DecidableEq

/-- The download session as an oracle: url and request headers to response;
`.error ()` models a `requests` exception. -/
abbrev Session := String → List (String × String) → Except Unit HttpResponse

/-- The `_generate` chunked body stream: 4096-byte chunks, empty chunks
skipped. -/
def _generate (response : HttpResponse) : List (List Nat) :=
  (chunkList 4096 response.body).filter (fun c => !c.isEmpty)

/-- The filename derivation of the non-range path: the last segment of the
url, overridden by a truthy `filename` parameter of a truthy upstream
`Content-Disposition` header. -/
def derived_filename (url : String) (response : HttpResponse) : String :=
  let filename := String.mk ((splitChar '/' url.data).getLastD [])
  match response.header "content-disposition" with
  | some cd =>
    if cd == "" then filename
    else
      match parse_header_param cd "filename" with
      | some f => if f == "" then filename else f
      | none => filename
  | none => filename

/-- The content-type derivation of the non-range path: the upstream
`Content-Type` header when truthy, else the declared type. -/
def effective_content_type (response : HttpResponse)
    (content_type : Option String) : Option String :=
  match response.header "content-type" with
  | some ct => if ct == "" then content_type else some ct
  | none => content_type

/-- `build_download_response(request, requests_session, url, download_url,
content_type)`: rejects unsafe urls before any fetch, forwards a Range
header verbatim and mirrors it back, and otherwise reconciles filename,
extension and content type before attaching a Content-Disposition header.
The embedding also returns the fetches actually issued; `.error` models
the exception re-raised to the caller. -/
def build_download_response (dns : DnsOracle) (cfg : Config)
    (session : Session) (request : FlaskRequest) (url download_url : String)
    (content_type : Option String) :
    List FetchLog × Except String WebResponse :=
  if !is_safe_url dns cfg url then ([], .error ("Unsafe url " ++ url))
  else
    let is_range_request := request.range.isSome
    let download_request_headers :=
      match request.range with
      | some r => [("Range", r)]
      | none => []
    let download_response_headers := download_request_headers
    match session download_url download_request_headers with
    | .error _ =>
      ([⟨download_url, download_request_headers⟩], .error "request exception")
    | .ok response =>
      if is_range_request then
        ([⟨download_url, download_request_headers⟩],
         .ok ⟨response.status_code, download_response_headers, content_type,
              .stream (_generate response)⟩)
      else
        let filename := derived_filename url response
        let content_type := effective_content_type response content_type
        let file_ext := splitext_ext filename
        let (filename, content_type) :=
          if !(file_ext == "") && !truthy content_type then
            (filename, guess_type filename)
          else if file_ext == "" && truthy content_type then
            match guess_extension (content_type.getD "") with
            | some extension => (filename ++ extension, content_type)
            | none => (filename, content_type)
          else (filename, content_type)
        let download_response_headers :=
          [("Content-Disposition", "attachment;filename=" ++ filename),
           ("Access-Control-Expose-Headers", "Content-Disposition"),
           ("Connection", "close")]
        ([⟨download_url, download_request_headers⟩],
         .ok ⟨response.status_code, download_response_headers, content_type,
              .stream (_generate response)⟩)

/- ### Nonce store and routes -/

/-- The per-identity nonce table (`ocean_provider.user_nonce`). -/
abbrev NonceStore := List (String × Nat)

/-- Modelled from the spec: `get_nonce` of the `user_nonce` module is not
under the sources; per the spec it returns the current nonce for the
identity, defaulting to 0 if unseen. -/
def get_nonce (store : NonceStore) (address : String) : Nat :=
  match store.find? (fun kv => kv.1 == address) with
  | some kv => kv.2
  | none => 0

/-- Modelled from the spec: `increment_nonce` of the `user_nonce` module is
not under the sources; per the spec it atomically advances the stored nonce
of the identity by 1. -/
def increment_nonce (store : NonceStore) (address : String) : NonceStore :=
  if store.any (fun kv => kv.1 == address) then
    store.map (fun kv => if kv.1 == address then (kv.1, kv.2 + 1) else kv)
  else (address, 1) :: store

/-- The signature verifier as an oracle
(`verify_signature(owner, signature, original_msg, nonce)` of
`ocean_provider.utils.accounts`, not under the sources; per the spec a pure
cryptographic check): `false` models the raised `InvalidSignatureError`. -/
abbrev VerifyOracle := String → String → String → Nat → Bool

/-- The `GET /nonce` endpoint: reads the nonce of `userAddress` and returns
it; the store is not modified. -/
def nonce (store : NonceStore) (userAddress : String) :
    NonceStore × WebResponse :=
  (store,
   ⟨200, [("content-type", "application/json")], none,
    .json (.obj [("nonce", .num (get_nonce store userAddress))])⟩)

/-- The url branch of the `POST /fileinfo` endpoint (`did` absent):
`generate_url` stands for the external Osmosis url signer
(`get_download_url`).  The nonce store is threaded to record that the
endpoint never touches it. -/
def fileinfo (dns : DnsOracle) (cfg : Config) (env : Upstream)
    (generate_url : String → String) (url : String) (with_checksum : Bool)
    (store : NonceStore) : NonceStore × WebResponse :=
  let url_list := [generate_url url]
  let files_info := url_list.enum.map (fun ui =>
    let details := (check_url_details dns cfg env ui.2 with_checksum).2
    Json.obj ([("index", Json.num ui.1), ("valid", Json.bool details.1)] ++
      details.2.map (fun kv => (kv.1, Json.str kv.2))))
  (store, ⟨200, [("content-type", "application/json")], none,
           .json (.arr files_info)⟩)

/-- The request data of `GET /compute` (status). -/
structure ComputeStatusRequest where
  signature : Option String
  consumerAddress : String
  documentId : String
  jobId : String

/-- The request data as the `service_unavailable` context object. -/
def ComputeStatusRequest.toJson (d : ComputeStatusRequest) : Json :=
  .obj ([("consumerAddress", .str d.consumerAddress),
         ("documentId", .str d.documentId), ("jobId", .str d.jobId)] ++
    match d.signature with
    | some s => [("signature", Json.str s)]
    | none => [])

/-- The response of the external compute cluster: status code and body
bytes, carried as their JSON parse (`.error ()` when `json.loads` would
fail on them). -/
structure ClusterResponse where
  status_code : Nat
  content : Except Unit Json

def standard_headers : List (String × String) :=
  [("Content-type", "application/json"), ("Connection", "close")]

def keys_to_filter : List String := ["resultsUrl", "algorithmLogUrl", "resultsDid"]

/-- The `GET /compute` (status) endpoint.  The upstream cluster call
(`requests_session.get` on the compute endpoint) happens first and may
raise -- `upstream = .error ()` models the `requests` exception -- in which
case the route's except-clause returns the generic 503 envelope and the
nonce is never incremented.  On an upstream response, a request counts as
signed when the `signature` field is truthy and verifies against
`{owner}{jobId}{documentId}` and the current nonce; the nonce is
incremented whenever a truthy signature was supplied, regardless of the
verification outcome.  An unsigned or failed-verification request gets the
upstream body re-serialized with `resultsUrl`, `algorithmLogUrl` and
`resultsDid` popped from every job entry; a body that is not JSON or whose
entries are not objects raises, yielding the generic 503 envelope. -/
def computeStatus (verify : VerifyOracle)
    (upstream : Except Unit ClusterResponse)
    (data : ComputeStatusRequest) (store : NonceStore) :
    NonceStore × WebResponse :=
  match upstream with
  | .error _ => (store, service_unavailable "ConnectionError" data.toJson)
  | .ok response =>
  let signed_request := truthy data.signature
  let (signed_request, store) :=
    if signed_request then
      let owner := data.consumerAddress
      let original_msg := owner ++ data.jobId ++ data.documentId
      let ok := verify owner (data.signature.getD "") original_msg
        (get_nonce store owner)
      (ok, increment_nonce store owner)
    else (signed_request, store)
  if !signed_request then
    match response.content with
    | .error _ =>
      (store, service_unavailable "Expecting value" data.toJson)
    | .ok c =>
      let resp_content := match c with | .arr l => l | other => [other]
      if resp_content.all Json.isObj then
        let filtered := resp_content.map (fun j =>
          match j with
          | .obj kvs =>
            Json.obj (kvs.filter (fun kv => !keys_to_filter.contains kv.1))
          | other => other)
        (store, ⟨response.status_code, standard_headers, none,
                 .json (.arr filtered)⟩)
      else
        (store, service_unavailable "AttributeError" data.toJson)
  else
    (store, ⟨response.status_code, standard_headers, none,
             .relay response.content⟩)

/-- The request data of `GET /computeResult`. -/
structure ComputeResultRequest where
  jobId : String
  index : String
  consumerAddress : String
  signature : Option String

/-- `PreparedRequest.prepare_url(url, params)` (modeled without
percent-encoding). -/
def prepare_url (url : String) (params : List (String × String)) : String :=
  url ++ "?" ++ String.intercalate "&" (params.map (fun kv => kv.1 ++ "=" ++ kv.2))

/-- The result url `computeResult` builds and downloads from. -/
def computeResult_url (result_endpoint : String) (sign : String → String)
    (data : ComputeResultRequest) : String :=
  let msg_to_sign := data.jobId ++ data.index ++ data.consumerAddress
  prepare_url result_endpoint
    [("index", data.index), ("consumerAddress", data.consumerAddress),
     ("jobId", data.jobId), ("consumerSignature", data.signature.getD ""),
     ("providerSignature", sign msg_to_sign)]

/-- The `GET /computeResult` endpoint: re-sign the request with the
gateway's own credential (`sign` stands for
`sign_message(..., provider_wallet)`), increment the caller's nonce, then
stream through the download gateway; any gateway failure becomes the
generic 503 envelope. -/
def computeResult (dns : DnsOracle) (cfg : Config) (session : Session)
    (request : FlaskRequest) (result_endpoint : String)
    (sign : String → String) (data : ComputeResultRequest)
    (store : NonceStore) : NonceStore × List FetchLog × WebResponse :=
  let result_url := computeResult_url result_endpoint sign data
  let store := increment_nonce store data.consumerAddress
  match build_download_response dns cfg session request result_url result_url
      none with
  | (trace, .ok resp) => (store, trace, resp)
  | (trace, .error e) =>
    (store, trace,
     service_unavailable e
       (.obj [("jobId", .str data.jobId), ("index", .str data.index),
              ("consumerAddress", .str data.consumerAddress)]))

/- ### General lemmas -/

/-- `splitChar` never returns the empty list. -/
theorem splitChar_ne_nil (sep : Char) (cs : List Char) : splitChar sep cs ≠ [] := by
  cases cs with
  | nil => simp [splitChar]
  | cons c cs =>
    simp only [splitChar]
    cases h : splitChar sep cs with
    | nil => simp
    | cons h t =>
      by_cases hc : c = sep <;> simp [hc]

theorem chunkList_join (n : Nat) (hn : 0 < n) (l : List α) :
    (chunkList n l).join = l := by
  have main : ∀ k, ∀ l : List α, l.length ≤ k → (chunkList n l).join = l := by
    intro k
    induction k with
    | zero =>
      intro l hl
      have hnil : l = [] := List.eq_nil_of_length_eq_zero (Nat.le_zero.mp hl)
      subst hnil
      rw [chunkList]
      simp
    | succ k ih =>
      intro l hl
      rw [chunkList]
      split
      · rename_i h
        rcases h with h | h
        · omega
        · have hnil : l = [] := List.eq_nil_of_length_eq_zero h
          subst hnil; simp
      · rename_i h
        simp only [not_or] at h
        have hlen : 0 < l.length := Nat.pos_of_ne_zero h.2
        have hd : (l.drop n).length ≤ k := by
          simp only [List.length_drop]; omega
        simp only [List.join_cons, ih (l.drop n) hd, List.take_append_drop]
  exact main l.length l (Nat.le_refl _)


theorem truthy_getD_ne (x : Option String) (h : truthy x = true) :
    x.getD "" ≠ "" := by
  cases x with
  | none => simp [truthy] at h
  | some s => simpa [truthy] using h

theorem derived_content_length_falsy (r : HttpResponse)
    (hcl : truthy (r.header "Content-Length") = false)
    (hcr : truthy (r.header "Content-Range") = false) :
    derived_content_length r = r.header "Content-Length" := by
  simp [derived_content_length, hcl, hcr]

theorem derived_content_type_falsy (r : HttpResponse)
    (hct : truthy (r.header "Content-Type") = false) :
    derived_content_type r = r.header "Content-Type" := by
  simp [derived_content_type, hct]

/-- C10.  When the probe result has status 200 but no truthy Content-Type,
Content-Length or Content-Range header, `check_url_details` returns
`(false, [])`; conversely every `(true, details)` result arises from a
status-200 response and carries a non-empty `contentType` or
`contentLength` entry. -/
theorem C10_success_requires_content_headers
    (dns : DnsOracle) (cfg : Config) (env : Upstream) (url : String)
    (with_checksum : Bool) (r : HttpResponse) (extra : List (String × String))
    (hres : (_get_result_from_url env cfg url with_checksum).2 = .ok (r, extra)) :
    (r.status_code = 200 → truthy (r.header "Content-Type") = false →
      truthy (r.header "Content-Length") = false →
      truthy (r.header "Content-Range") = false →
      (check_url_details dns cfg env url with_checksum).2 = (false, [])) ∧
    (∀ details,
      (check_url_details dns cfg env url with_checksum).2 = (true, details) →
      r.status_code = 200 ∧
      ∃ cl ct rest, details = ("contentLength", cl) :: ("contentType", ct) :: rest ∧
        (cl ≠ "" ∨ ct ≠ "")) := by
  rcases hget : _get_result_from_url env cfg url with_checksum with ⟨tr, res⟩
  rw [hget] at hres
  simp only at hres
  subst hres
  rw [check_url_details]
  cases hsafe : is_safe_url dns cfg url with
  | false =>
    constructor
    · intro _ _ _ _; simp
    · intro details hdet; simp at hdet
  | true =>
    simp only [Bool.not_true, Bool.false_eq_true, if_false, hget]
    constructor
    · intro h200 hct hcl hcr
      have hclf : truthy (derived_content_length r) = false := by
        rw [derived_content_length_falsy r hcl hcr]; exact hcl
      have hctf : truthy (derived_content_type r) = false := by
        rw [derived_content_type_falsy r hct]; exact hct
      simp [h200, hclf, hctf]
    · intro details hdet
      by_cases h200 : r.status_code = 200
      · simp only [h200, beq_self_eq_true, if_true] at hdet
        refine ⟨h200, ?_⟩
        by_cases hcond : (truthy (derived_content_type r)
            || truthy (derived_content_length r)) = true
        · rw [if_pos hcond] at hdet
          simp only [Prod.mk.injEq, true_and] at hdet
          refine ⟨(derived_content_length r).getD "",
            (derived_content_type r).getD "", extra, hdet.symm, ?_⟩
          rcases Bool.or_eq_true_iff.mp hcond with hc | hc
          · exact Or.inr (truthy_getD_ne _ hc)
          · exact Or.inl (truthy_getD_ne _ hc)
        · rw [if_neg hcond] at hdet
          simp at hdet
      · have : (r.status_code == 200) = false := by
          simpa using h200
        simp [this] at hdet

theorem foldl_sha_update (l : List (List Nat)) (acc : List Nat) :
    l.foldl sha_update acc = acc ++ l.join := by
  induction l generalizing acc with
  | nil => simp
  | cons c cs ih => simp [sha_update, ih, List.append_assoc]

theorem compressBlock_length (h block : List Nat) :
    (compressBlock h block).length = 8 := rfl

theorem sha256Words_length (msg : List Nat) : (sha256Words msg).length = 8 := by
  rw [sha256Words]
  generalize chunkList 64 (shaPad msg) = blocks
  have main : ∀ (bs : List (List Nat)) (init : List Nat), init.length = 8 →
      (bs.foldl compressBlock init).length = 8 := by
    intro bs
    induction bs with
    | nil => intro init h; simpa using h
    | cons b bs ih => intro init _; exact ih (compressBlock init b) rfl
  exact main blocks shaHinit rfl

theorem hexDigitChar_isHex (n : Nat) : isHexChar (hexDigitChar n) = true := by
  unfold hexDigitChar
  have h : n % 16 < 16 := Nat.mod_lt _ (by norm_num)
  generalize hm : n % 16 = m at h ⊢
  interval_cases m <;> decide

theorem sha256Hex_length (msg : List Nat) : (sha256Hex msg).length = 64 := by
  have hlen : ∀ ws : List Nat, ((ws.map hex8).join).length = 8 * ws.length := by
    intro ws
    induction ws with
    | nil => rfl
    | cons w ws ih => simp [hex8, ih]; omega
  show ((sha256Words msg).map hex8).join.length = 64
  rw [hlen, sha256Words_length]

theorem sha256Hex_chars (msg : List Nat) :
    (sha256Hex msg).data.all isHexChar = true := by
  have hall : ∀ ws : List Nat, ((ws.map hex8).join).all isHexChar = true := by
    intro ws
    induction ws with
    | nil => rfl
    | cons w ws ih => simp [hex8, hexDigitChar_isHex, ih]
  exact hall (sha256Words msg)

/-- C8.  Whenever a checksum is requested, a streamed GET is issued even
when HEAD or OPTIONS already produced usable headers, the digest is the
SHA-256 of the entire body (the chunks hashed in order reassemble the
body), and the descriptor carries the hex digest under `checksum` with
`checksumType` `sha256`; the digest is a 64-character hex string and a
function of the body alone, hence identical across repeated calls on a
fixed body. -/
theorem C8_checksum_full_get
    (env : Upstream) (cfg : Config) (url : String) (r1 r2 r3 : HttpResponse)
    (h1 : env .head url = .ok r1) (h2 : env .options url = .ok r2)
    (h3 : env .get url = .ok r3) (h3s : r3.status_code < 400)
    (hchunk : 0 < cfg.requests_chunk_size) :
    _get_result_from_url env cfg url true =
      ([⟨.head, url⟩, ⟨.options, url⟩, ⟨.get, url⟩],
       .ok (r3, [("checksum", sha256Hex r3.body),
                 ("checksumType", "sha256")])) ∧
    (sha256Hex r3.body).length = 64 ∧
    (sha256Hex r3.body).data.all isHexChar = true := by
  refine ⟨?_, sha256Hex_length _, sha256Hex_chars _⟩
  rw [_get_result_from_url, h1, h2, h3]
  have hp1 : probeSufficient true r1 = false := rfl
  have hp2 : probeSufficient true r2 = false := rfl
  have hs : ¬ 400 ≤ r3.status_code := by omega
  simp only [hp1, hp2, Bool.false_eq_true, if_false, Bool.not_true, hs,
    foldl_sha_update, List.nil_append, chunkList_join _ hchunk]

/-- C4.  For every call to `build_download_response` with a URL that
`is_safe_url` rejects, the gateway fails before issuing any upstream fetch:
the fetch trace is empty and the result is the re-raised error; at the
`/computeResult` route the failure surfaces as the generic 503
`service_unavailable` envelope. -/
theorem C4_blocked_url_never_fetched :
    (∀ (dns : DnsOracle) (cfg : Config) (session : Session)
       (request : FlaskRequest) (url download_url : String)
       (content_type : Option String),
      is_safe_url dns cfg url = false →
      build_download_response dns cfg session request url download_url
          content_type = ([], .error ("Unsafe url " ++ url))) ∧
    (∀ (dns : DnsOracle) (cfg : Config) (session : Session)
       (request : FlaskRequest) (result_endpoint : String)
       (sign : String → String) (data : ComputeResultRequest)
       (store : NonceStore),
      is_safe_url dns cfg (computeResult_url result_endpoint sign data) = false →
      (computeResult dns cfg session request result_endpoint sign data store).2 =
        ([], service_unavailable
          ("Unsafe url " ++ computeResult_url result_endpoint sign data)
          (.obj [("jobId", .str data.jobId), ("index", .str data.index),
                 ("consumerAddress", .str data.consumerAddress)])) ∧
      (computeResult dns cfg session request result_endpoint sign data
          store).2.2.status = 503) := by
  constructor
  · intro dns cfg session request url download_url content_type h
    simp [build_download_response, h]
  · intro dns cfg session request result_endpoint sign data store h
    constructor
    · simp [computeResult, build_download_response, h]
    · simp [computeResult, build_download_response, h, service_unavailable]

/-- C4 witness at a malformed (hence rejected) URL. -/
theorem C4_witness :
    (is_safe_url (fun _ _ => none) ⟨false, 5, 100⟩ "not a url" = false ∧
     build_download_response (fun _ _ => none) ⟨false, 5, 100⟩
       (fun _ _ => .error ()) ⟨none⟩ "not a url" "not a url" none =
       ([], .error ("Unsafe url " ++ "not a url"))) ∧
    (is_safe_url (fun _ _ => none) ⟨false, 5, 100⟩
       (computeResult_url "badendpoint" id ⟨"j", "0", "0xabc", none⟩) = false ∧
     (computeResult (fun _ _ => none) ⟨false, 5, 100⟩ (fun _ _ => .error ())
       ⟨none⟩ "badendpoint" id ⟨"j", "0", "0xabc", none⟩ []).2.2.status = 503) :=
  ⟨⟨by decide,
    C4_blocked_url_never_fetched.1 (fun _ _ => none) ⟨false, 5, 100⟩
      (fun _ _ => .error ()) ⟨none⟩ "not a url" "not a url" none (by decide)⟩,
   ⟨by decide,
    (C4_blocked_url_never_fetched.2 (fun _ _ => none) ⟨false, 5, 100⟩
      (fun _ _ => .error ()) ⟨none⟩ "badendpoint" id ⟨"j", "0", "0xabc", none⟩
      [] (by decide)).2⟩⟩

/-- C6.  For every request carrying a (parseable) Range header, the
gateway forwards exactly that header to the upstream fetch, mirrors the
same header set in the client response, propagates the upstream status code
unchanged, and the mirrored header set contains no Content-Disposition. -/
theorem C6_range_passthrough
    (dns : DnsOracle) (cfg : Config) (session : Session)
    (request : FlaskRequest) (url download_url : String)
    (content_type : Option String) (r : String) (resp : HttpResponse)
    (hr : request.range = some r)
    (hsafe : is_safe_url dns cfg url = true)
    (hfetch : session download_url [("Range", r)] = .ok resp) :
    build_download_response dns cfg session request url download_url
        content_type =
      ([⟨download_url, [("Range", r)]⟩],
       .ok ⟨resp.status_code, [("Range", r)], content_type,
            .stream (_generate resp)⟩) ∧
    (∀ v, ("Content-Disposition", v) ∉ [("Range", r)]) := by
  constructor
  · simp [build_download_response, hsafe, hr, hfetch]
  · intro v
    simp

/-- C6 witness: a `bytes=0-99` range request against a 206 upstream. -/
theorem C6_witness :
    ((⟨some "bytes=0-99"⟩ : FlaskRequest).range = some "bytes=0-99" ∧
     is_safe_url (fun _ _ => some ["8.8.8.8"]) ⟨false, 5, 100⟩
       "http://example.com/f.txt" = true ∧
     (fun (_ : String) (_ : List (String × String)) =>
        (.ok ⟨206, [("Content-Range", "bytes 0-99/1000")],
          List.replicate 100 7⟩ : Except Unit HttpResponse))
       "http://example.com/f.txt" [("Range", "bytes=0-99")] =
       .ok ⟨206, [("Content-Range", "bytes 0-99/1000")], List.replicate 100 7⟩) ∧
    build_download_response (fun _ _ => some ["8.8.8.8"]) ⟨false, 5, 100⟩
      (fun _ _ => .ok ⟨206, [("Content-Range", "bytes 0-99/1000")],
        List.replicate 100 7⟩)
      ⟨some "bytes=0-99"⟩ "http://example.com/f.txt" "http://example.com/f.txt"
      none =
      ([⟨"http://example.com/f.txt", [("Range", "bytes=0-99")]⟩],
       .ok ⟨206, [("Range", "bytes=0-99")], none,
            .stream (_generate ⟨206, [("Content-Range", "bytes 0-99/1000")],
              List.replicate 100 7⟩)⟩) :=
  ⟨⟨rfl, by decide, rfl⟩,
   (C6_range_passthrough (fun _ _ => some ["8.8.8.8"]) ⟨false, 5, 100⟩
     (fun _ _ => .ok ⟨206, [("Content-Range", "bytes 0-99/1000")],
       List.replicate 100 7⟩)
     ⟨some "bytes=0-99"⟩ "http://example.com/f.txt" "http://example.com/f.txt"
     none "bytes=0-99" ⟨206, [("Content-Range", "bytes 0-99/1000")],
       List.replicate 100 7⟩ rfl (by decide) rfl).1⟩

/-- C7.  In the non-range path: when the derived filename has no extension
and a content type is known whose `guess_extension` succeeds, the attached
Content-Disposition filename gains that extension; when the filename has an
extension and no content type is known, the response content type is
`guess_type` of the filename. -/
theorem C7_filename_content_type_reconciliation
    (dns : DnsOracle) (cfg : Config) (session : Session)
    (request : FlaskRequest) (url download_url : String)
    (declared : Option String) (resp : HttpResponse)
    (hr : request.range = none)
    (hsafe : is_safe_url dns cfg url = true)
    (hfetch : session download_url [] = .ok resp) :
    (∀ extension, splitext_ext (derived_filename url resp) = "" →
      truthy (effective_content_type resp declared) = true →
      guess_extension ((effective_content_type resp declared).getD "") =
        some extension →
      (build_download_response dns cfg session request url download_url
          declared).2 =
        .ok ⟨resp.status_code,
             [("Content-Disposition",
               "attachment;filename=" ++ (derived_filename url resp ++ extension)),
              ("Access-Control-Expose-Headers", "Content-Disposition"),
              ("Connection", "close")],
             effective_content_type resp declared,
             .stream (_generate resp)⟩) ∧
    (¬ splitext_ext (derived_filename url resp) = "" →
      truthy (effective_content_type resp declared) = false →
      (build_download_response dns cfg session request url download_url
          declared).2 =
        .ok ⟨resp.status_code,
             [("Content-Disposition",
               "attachment;filename=" ++ derived_filename url resp),
              ("Access-Control-Expose-Headers", "Content-Disposition"),
              ("Connection", "close")],
             guess_type (derived_filename url resp),
             .stream (_generate resp)⟩) := by
  constructor
  · intro extension hext hct hguess
    simp [build_download_response, hsafe, hr, hfetch, hext, hct, hguess]
  · intro hext hct
    have hext' : (splitext_ext (derived_filename url resp) == "") = false := by
      simpa using hext
    simp [build_download_response, hsafe, hr, hfetch, hext', hct]

/-- C7 witness: `Content-Type: text/plain` appends `.txt`; `report.csv`
with no content type yields `text/csv`. -/
theorem C7_witness :
    (splitext_ext (derived_filename "http://example.com/file"
        ⟨200, [("Content-Type", "text/plain")], []⟩) = "" ∧
     guess_extension ((effective_content_type
        ⟨200, [("Content-Type", "text/plain")], []⟩ none).getD "") =
       some ".txt" ∧
     (build_download_response (fun _ _ => some ["8.8.8.8"]) ⟨false, 5, 100⟩
        (fun _ _ => .ok ⟨200, [("Content-Type", "text/plain")], []⟩)
        ⟨none⟩ "http://example.com/file" "http://example.com/file" none).2 =
       .ok ⟨200,
            [("Content-Disposition", "attachment;filename=" ++ ("file" ++ ".txt")),
             ("Access-Control-Expose-Headers", "Content-Disposition"),
             ("Connection", "close")],
            some "text/plain",
            .stream (_generate ⟨200, [("Content-Type", "text/plain")], []⟩)⟩) ∧
    (¬ splitext_ext (derived_filename "http://example.com/report.csv"
        ⟨200, [], []⟩) = "" ∧
     guess_type (derived_filename "http://example.com/report.csv"
        ⟨200, [], []⟩) = some "text/csv" ∧
     (build_download_response (fun _ _ => some ["8.8.8.8"]) ⟨false, 5, 100⟩
        (fun _ _ => .ok ⟨200, [], []⟩)
        ⟨none⟩ "http://example.com/report.csv" "http://example.com/report.csv"
        none).2 =
       .ok ⟨200,
            [("Content-Disposition", "attachment;filename=" ++ "report.csv"),
             ("Access-Control-Expose-Headers", "Content-Disposition"),
             ("Connection", "close")],
            some "text/csv",
            .stream (_generate ⟨200, [], []⟩)⟩) := by
  constructor
  · refine ⟨by decide, by decide, ?_⟩
    have h := (C7_filename_content_type_reconciliation
      (fun _ _ => some ["8.8.8.8"]) ⟨false, 5, 100⟩
      (fun _ _ => .ok ⟨200, [("Content-Type", "text/plain")], []⟩)
      ⟨none⟩ "http://example.com/file" "http://example.com/file" none
      ⟨200, [("Content-Type", "text/plain")], []⟩ rfl (by decide) rfl).1
      ".txt" (by decide) (by decide) (by decide)
    exact h.trans rfl
  · refine ⟨by decide, by decide, ?_⟩
    have h := (C7_filename_content_type_reconciliation
      (fun _ _ => some ["8.8.8.8"]) ⟨false, 5, 100⟩
      (fun _ _ => .ok ⟨200, [], []⟩)
      ⟨none⟩ "http://example.com/report.csv" "http://example.com/report.csv"
      none ⟨200, [], []⟩ rfl (by decide) rfl).2 (by decide) (by decide)
    exact h.trans rfl

theorem keys_to_filter_not_error_ctx (k : String) (hk : k ∈ keys_to_filter) :
    k ≠ "error" ∧ k ≠ "context" := by
  simp only [keys_to_filter, List.mem_cons, List.not_mem_nil, or_false]
    at hk
  rcases hk with rfl | rfl | rfl <;> exact ⟨by decide, by decide⟩

theorem jobKeys_service_unavailable (e : String) (ctx : Json) (k : String)
    (hk : k ∈ keys_to_filter) :
    k ∉ ((service_unavailable e ctx).body).jobKeys := by
  obtain ⟨h1, h2⟩ := keys_to_filter_not_error_ctx k hk
  simp [service_unavailable, HttpBody.jobKeys, Json.jobKeys, Json.objKeys,
    h1, h2]

theorem jobKeys_filtered (l : List Json) (k : String) (hk : k ∈ keys_to_filter) :
    k ∉ (Json.arr (l.map (fun j =>
      match j with
      | .obj kvs =>
        Json.obj (kvs.filter (fun kv => !keys_to_filter.contains kv.1))
      | other => other))).jobKeys ∨ l.all Json.isObj = false := by
  by_cases hall : l.all Json.isObj = true
  · left
    intro hmem
    simp only [Json.jobKeys, List.mem_join, List.map_map, List.mem_map] at hmem
    obtain ⟨keys, ⟨j, hj, hkeys⟩, hkmem⟩ := hmem
    have hobj : j.isObj = true := by
      rw [List.all_eq_true] at hall
      exact hall j hj
    cases j with
    | obj kvs =>
      simp only [Function.comp_apply, Json.objKeys] at hkeys
      subst hkeys
      simp only [List.mem_map] at hkmem
      obtain ⟨kv, hkv, hfst⟩ := hkmem
      rw [List.mem_filter] at hkv
      have := hkv.2
      rw [hfst] at this
      simp only [Bool.not_eq_true'] at this
      rw [List.contains_eq_any_beq] at this
      have hniff : ¬ k ∈ keys_to_filter := by
        intro hmem2
        have : keys_to_filter.any (fun x => x == k) = true := by
          rw [List.any_eq_true]
          exact ⟨k, hmem2, by simp⟩
        simp_all
      exact hniff hk
    | null => simp [Json.isObj] at hobj
    | bool b => simp [Json.isObj] at hobj
    | num n => simp [Json.isObj] at hobj
    | str s => simp [Json.isObj] at hobj
    | arr l2 => simp [Json.isObj] at hobj
  · right
    simpa using hall

/-- C2.  For every `GET /compute` status request whose `signature` field is
absent (or empty, hence falsy) or fails verification, no key of any
job-status object of the response body -- nor of the 503 error envelope of
the transport-failure, JSON-decode-failure and non-object-entry paths -- is
`resultsUrl`, `algorithmLogUrl` or `resultsDid`, whatever the upstream
compute-cluster response contained. -/
theorem C2_unsigned_compute_status_redacted
    (verify : VerifyOracle) (upstream : Except Unit ClusterResponse)
    (data : ComputeStatusRequest) (store : NonceStore) (k : String)
    (hk : k ∈ keys_to_filter)
    (huns : truthy data.signature = false ∨
      verify data.consumerAddress (data.signature.getD "")
        (data.consumerAddress ++ data.jobId ++ data.documentId)
        (get_nonce store data.consumerAddress) = false) :
    k ∉ ((computeStatus verify upstream data store).2.body).jobKeys := by
  cases upstream with
  | error e =>
    simpa [computeStatus] using
      jobKeys_service_unavailable "ConnectionError" data.toJson k hk
  | ok response =>
  rw [computeStatus]
  have main : ∀ st : NonceStore,
      k ∉ (((match response.content with
        | Except.error _ =>
          (st, service_unavailable "Expecting value" data.toJson)
        | Except.ok c =>
          if (match c with
              | Json.arr l => l | other => [other]).all Json.isObj = true then
            (st, (⟨response.status_code, standard_headers, none,
              HttpBody.json (Json.arr (List.map (fun j =>
                match j with
                | Json.obj kvs =>
                  Json.obj (List.filter
                    (fun kv => !keys_to_filter.contains kv.1) kvs)
                | other => other)
                (match c with
                | Json.arr l => l
                | other => [other])))⟩ : WebResponse))
          else (st, service_unavailable "AttributeError" data.toJson)) :
        NonceStore × WebResponse)).2.body.jobKeys := by
    intro st
    cases response.content with
    | error e => simpa using jobKeys_service_unavailable _ data.toJson k hk
    | ok c =>
      simp only
      have hfil := jobKeys_filtered
        (match c with | Json.arr l => l | other => [other]) k hk
      split
      · rename_i hall
        rcases hfil with h | h
        · exact h
        · rw [h] at hall
          simp at hall
      · exact jobKeys_service_unavailable _ data.toJson k hk
  by_cases hsig : truthy data.signature = true
  · rcases huns with hu | hu
    · rw [hu] at hsig; simp at hsig
    · simp only [hsig, if_true, hu, Bool.not_false, Bool.false_eq_true,
        if_false, if_true]
      exact main (increment_nonce store data.consumerAddress)
  · have hsigf : truthy data.signature = false := by simpa using hsig
    simp only [hsigf, Bool.false_eq_true, if_false, Bool.not_false, if_true]
    exact main store

/-- C2 witness: an unsigned request against an upstream body that carries
`resultsUrl`. -/
theorem C2_witness :
    "resultsUrl" ∈ keys_to_filter ∧
    (truthy (⟨none, "0xabc", "did", "job"⟩ : ComputeStatusRequest).signature =
        false ∨
      (fun (_ _ _ : String) (_ : Nat) => true) "0xabc"
        ((⟨none, "0xabc", "did", "job"⟩ : ComputeStatusRequest).signature.getD "")
        ("0xabc" ++ "job" ++ "did") (get_nonce [] "0xabc") = false) ∧
    "resultsUrl" ∉ ((computeStatus (fun _ _ _ _ => true)
      (.ok ⟨200,
        .ok (.arr [.obj [("resultsUrl", .str "u"), ("status", .str "ok")]])⟩)
      ⟨none, "0xabc", "did", "job"⟩ []).2.body).jobKeys :=
  ⟨by decide, Or.inl rfl,
   C2_unsigned_compute_status_redacted (fun _ _ _ _ => true)
     (.ok ⟨200,
       .ok (.arr [.obj [("resultsUrl", .str "u"), ("status", .str "ok")]])⟩)
     ⟨none, "0xabc", "did", "job"⟩ [] "resultsUrl" (by decide) (Or.inl rfl)⟩

theorem get_nonce_map_increment (store : NonceStore) (address : String)
    (h : store.any (fun kv => kv.1 == address) = true) :
    get_nonce (store.map (fun kv =>
      if kv.1 == address then (kv.1, kv.2 + 1) else kv)) address =
    get_nonce store address + 1 := by
  induction store with
  | nil => simp at h
  | cons kv rest ih =>
    by_cases hb : (kv.1 == address) = true
    · simp only [List.map_cons, hb, if_true, get_nonce]
      rw [List.find?_cons_of_pos _ (by simpa using hb),
        List.find?_cons_of_pos _ (by simpa using hb)]
    · have hrest : rest.any (fun kv => kv.1 == address) = true := by
        simp only [List.any_cons, hb, Bool.false_or] at h
        exact h
      simp only [List.map_cons, hb, if_false, get_nonce] at ih ⊢
      rw [List.find?_cons_of_neg _ (by simpa using hb),
        List.find?_cons_of_neg _ (by simpa using hb)]
      exact ih hrest

theorem get_nonce_increment_nonce (store : NonceStore) (address : String) :
    get_nonce (increment_nonce store address) address =
      get_nonce store address + 1 := by
  rw [increment_nonce]
  by_cases h : store.any (fun kv => kv.1 == address) = true
  · rw [if_pos h]
    exact get_nonce_map_increment store address h
  · rw [if_neg h]
    have hfind : store.find? (fun kv => kv.1 == address) = none := by
      rw [List.find?_eq_none]
      intro kv hkv hc
      exact h (List.any_eq_true.mpr ⟨kv, hkv, hc⟩)
    simp only [get_nonce, hfind]
    rw [@List.find?_cons_of_pos _ (fun kv => kv.1 == address) (address, 1)
      store (by simp)]

/-- C3, amended.  The nonce increment is not universal across endpoints:
`/nonce` and `/fileinfo` never touch the store, and the `/compute` status
endpoint increments the caller nonce exactly once iff the upstream cluster
call returned (a transport failure skips the increment even for a signed
request) and the request carries a truthy signature, regardless of the
verification outcome; one `increment_nonce` advances the stored nonce by
exactly 1. -/
theorem C3_nonce_increment_not_universal :
    (∀ (store : NonceStore) (userAddress : String),
      (nonce store userAddress).1 = store) ∧
    (∀ (dns : DnsOracle) (cfg : Config) (env : Upstream)
       (generate_url : String → String) (url : String) (wc : Bool)
       (store : NonceStore),
      (fileinfo dns cfg env generate_url url wc store).1 = store) ∧
    (∀ (verify : VerifyOracle) (upstream : Except Unit ClusterResponse)
       (data : ComputeStatusRequest) (store : NonceStore),
      (computeStatus verify upstream data store).1 =
        (match upstream with
         | .error _ => store
         | .ok _ =>
           if truthy data.signature then
             increment_nonce store data.consumerAddress
           else store)) ∧
    (∀ (store : NonceStore) (address : String),
      get_nonce (increment_nonce store address) address =
        get_nonce store address + 1) := by
  refine ⟨fun _ _ => rfl, fun _ _ _ _ _ _ _ => rfl, ?_,
    get_nonce_increment_nonce⟩
  intro verify upstream data store
  cases upstream with
  | error e => rfl
  | ok response =>
  by_cases hsig : truthy data.signature = true
  · simp only [computeStatus, hsig, if_true]
    by_cases hv : verify data.consumerAddress (data.signature.getD "")
        (data.consumerAddress ++ data.jobId ++ data.documentId)
        (get_nonce store data.consumerAddress) = true
    · simp only [hv, Bool.not_true, Bool.false_eq_true, if_false]
    · have hvf : verify data.consumerAddress (data.signature.getD "")
          (data.consumerAddress ++ data.jobId ++ data.documentId)
          (get_nonce store data.consumerAddress) = false := by simpa using hv
      simp only [hvf, Bool.not_false, if_true]
      cases response.content with
      | error e => rfl
      | ok c =>
        simp only
        split <;> rfl
  · have hsigf : truthy data.signature = false := by simpa using hsig
    simp only [computeStatus, hsigf, Bool.false_eq_true, if_false,
      Bool.not_false, if_true]
    cases response.content with
    | error e => rfl
    | ok c =>
      simp only
      split <;> rfl

/-- C3 counterexample.  Against the claim: a `/fileinfo` request that
passed request-data extraction leaves the nonce store unchanged (the
caller's nonce stays 0 instead of being incremented), as does `/nonce`. -/
theorem C3_counterexample :
    (fileinfo (fun _ _ => none) ⟨false, 5, 100⟩ (fun _ _ => .error ())
      (fun u => u) "http://example.com/x" false []).1 = [] ∧
    get_nonce ((fileinfo (fun _ _ => none) ⟨false, 5, 100⟩ (fun _ _ => .error ())
      (fun u => u) "http://example.com/x" false []).1) "0xconsumer" = 0 ∧
    (nonce [] "0xconsumer").1 = [] :=
  ⟨rfl, rfl, rfl⟩

theorem ip_address_single_char (c : Char) (h : c.isDigit = true ∨ c = '.') :
    ip_address (String.mk [c]) = none := by
  rcases h with h | h
  · have hdot : ¬ c = '.' := by rintro rfl; simp [Char.isDigit] at h
    have hcol : ¬ c = ':' := by rintro rfl; simp [Char.isDigit] at h
    have hc2 : ([c].contains ':') = false := by
      simp only [List.contains, List.elem]
      rw [beq_eq_false_iff_ne.mpr (Ne.symm hcol)]
    simp [ip_address, parseIPv4, parseIPv6, splitChar, hdot, hc2]
    intro hx
    exact absurd hx.symm hcol
  · subst h; decide

theorem validate_dns_record_single_char (cfg : Config) (c : Char)
    (domain : String) (h : c.isDigit = true ∨ c = '.') :
    validate_dns_record cfg (String.mk [c]) domain "" = false := by
  simp [validate_dns_record, ip_address_single_char c h]

theorem is_safe_domain_of_is_ip (dns : DnsOracle) (cfg : Config)
    (domain : String) (h : is_ip domain = true) :
    is_safe_domain dns cfg domain = false := by
  have hchars : ∀ c ∈ domain.data, c.isDigit = true ∨ c = '.' := by
    intro c hc
    by_cases hd : c = '.'
    · exact Or.inr hd
    · left
      simp only [is_ip, ne_eq, decide_not, Bool.and_eq_true, List.all_eq_true] at h
      apply h.2
      simp [List.mem_filter, hc, hd]
  have hne : domain.data ≠ [] := by
    intro hnil
    simp only [is_ip, hnil, ne_eq, decide_not, Bool.and_eq_true] at h
    simp at h
  have hall : (stringAsRecords domain).all
      (fun r => validate_dns_record cfg r domain "") = false := by
    rw [List.all_eq_false]
    obtain ⟨c, cs, hcons⟩ := List.exists_cons_of_ne_nil hne
    refine ⟨String.mk [c], ?_, ?_⟩
    · simp [stringAsRecords, hcons]
    · simp [validate_dns_record_single_char cfg c domain
        (hchars c (by simp [hcons]))]
  simp [is_safe_domain, h, validate_dns_records, hall]

/-- C1, amended.  For every URL whose host `is_ip` recognizes as a
dotted-decimal numeric literal, `is_safe_url` is `false` for every DNS
oracle and every configuration -- including `allow_non_public_ip = true`
and public literals -- because the literal check iterates the domain string
character by character and no one-character string parses as an IP address.
A bracketed IPv6 literal host such as `[::1]` is never literal-checked, so
when DNS resolution of the literal fails the URL is classified safe even
with the default configuration. -/
theorem C1_ip_literal_classification :
    (∀ (dns : DnsOracle) (cfg : Config) (url : String),
      is_ip (urlparse_netloc url) = true → is_safe_url dns cfg url = false) ∧
    (∀ cfg : Config,
      is_safe_url (fun _ _ => none) cfg "http://[::1]/x" = true) := by
  constructor
  · intro dns cfg url hip
    rw [is_safe_url]
    cases hs : is_safe_schema url with
    | false => simp
    | true => simp [is_safe_domain_of_is_ip dns cfg _ hip]
  · intro cfg
    rfl

/-- C1 counterexample.  Against the claim: with failing DNS resolution and
the default configuration `is_safe_url "http://[::1]/x"` is `true`, and
`is_safe_url "http://127.0.0.1/x"` stays `false` even with
`allow_non_public_ip` enabled; a public IPv4 literal is rejected too. -/
theorem C1_counterexample :
    is_safe_url (fun _ _ => none) ⟨false, 5, 100⟩ "http://[::1]/x" = true ∧
    is_safe_url (fun _ _ => none) ⟨true, 5, 100⟩ "http://127.0.0.1/x" = false ∧
    is_safe_url (fun _ _ => none) ⟨false, 5, 100⟩ "http://8.8.8.8/x" = false := by
  refine ⟨rfl, ?_, ?_⟩ <;> decide

/-- C1 witness for the amended theorem at the loopback literal with the
override enabled. -/
theorem C1_witness :
    is_ip (urlparse_netloc "http://127.0.0.1/x") = true ∧
    is_safe_url (fun _ _ => none) ⟨true, 5, 100⟩ "http://127.0.0.1/x" = false :=
  ⟨by decide, C1_ip_literal_classification.1 (fun _ _ => none) ⟨true, 5, 100⟩
    "http://127.0.0.1/x" (by decide)⟩

theorem validate_dns_records_none (cfg : Config) (domain record_type : String) :
    validate_dns_records cfg domain none record_type = true := rfl

theorem is_safe_domain_mono (dns dnsFailed : DnsOracle) (cfg : Config)
    (domain : String)
    (h : ∀ d rt, dnsFailed d rt = none ∨ dnsFailed d rt = dns d rt)
    (hs : is_safe_domain dns cfg domain = true) :
    is_safe_domain dnsFailed cfg domain = true := by
  have key : ∀ rt, validate_dns_records cfg domain (dns domain rt) rt = true →
      validate_dns_records cfg domain (dnsFailed domain rt) rt = true := by
    intro rt horig
    rcases h domain rt with h' | h'
    · rw [h']; rfl
    · rw [h', horig]
  by_cases hip : is_ip domain = true
  · simp only [is_safe_domain, _get_records, hip, Bool.not_true,
      Bool.false_eq_true, if_false, Bool.and_eq_true] at hs ⊢
    exact ⟨⟨key "A" hs.1.1, key "AAAA" hs.1.2⟩, hs.2⟩
  · replace hip : is_ip domain = false := by
      cases hv : is_ip domain
      · rfl
      · exact absurd hv hip
    simp only [is_safe_domain, _get_records, hip, Bool.not_false, if_true,
      Bool.and_eq_true] at hs ⊢
    exact ⟨key "A" hs.1, key "AAAA" hs.2⟩

/-- C5.  A failed resolution (`None` record set) satisfies
`validate_dns_records` for every domain and record type, and degrading any
DNS answers of an oracle to failures never turns a safe URL unsafe:
resolver errors alone produce no safety violation and, being absorbed into
`None` by `_get_records`, are never propagated. -/
theorem C5_resolver_failure_no_violation :
    (∀ (cfg : Config) (domain record_type : String),
      validate_dns_records cfg domain none record_type = true) ∧
    (∀ (dns dnsFailed : DnsOracle) (cfg : Config) (url : String),
      (∀ d rt, dnsFailed d rt = none ∨ dnsFailed d rt = dns d rt) →
      is_safe_url dns cfg url = true → is_safe_url dnsFailed cfg url = true) := by
  refine ⟨fun _ _ _ => rfl, ?_⟩
  intro dns dnsFailed cfg url h hs
  rw [is_safe_url] at hs ⊢
  cases hsch : is_safe_schema url with
  | false => rw [hsch] at hs; simp at hs
  | true =>
    rw [hsch] at hs
    simp only [Bool.not_true, Bool.false_eq_true, if_false] at hs ⊢
    exact is_safe_domain_mono dns dnsFailed cfg _ h hs

/-- C5 witness: a URL safe under a public-record oracle stays safe under
the everywhere-failing oracle. -/
theorem C5_witness :
    (∀ d rt, (fun (_ : String) (_ : String) =>
        (none : Option (List String))) d rt = none ∨
      (fun (_ : String) (_ : String) =>
        (none : Option (List String))) d rt =
      (fun (_ : String) (_ : String) => some ["8.8.8.8"]) d rt) ∧
    is_safe_url (fun _ _ => some ["8.8.8.8"]) ⟨false, 5, 100⟩
      "http://example.com/data" = true ∧
    is_safe_url (fun _ _ => none) ⟨false, 5, 100⟩
      "http://example.com/data" = true :=
  ⟨fun _ _ => Or.inl rfl, by decide,
   C5_resolver_failure_no_violation.2 (fun _ _ => some ["8.8.8.8"])
     (fun _ _ => none) ⟨false, 5, 100⟩ "http://example.com/data"
     (fun _ _ => Or.inl rfl) (by decide)⟩

/-- C9.  For every URL rejected by `is_safe_url`, `check_url_details`
returns `(false, [])` without issuing any upstream request -- exactly the
`(false, [])` it also returns when the first upstream request raises -- so
`/fileinfo` reports an SSRF-rejected URL as `valid = false`,
indistinguishable from an unavailable one. -/
theorem C9_ssrf_url_reported_unavailable :
    (∀ (dns : DnsOracle) (cfg : Config) (env : Upstream) (url : String)
       (with_checksum : Bool),
      is_safe_url dns cfg url = false →
      check_url_details dns cfg env url with_checksum = ([], (false, []))) ∧
    (∀ (dns : DnsOracle) (cfg : Config) (env : Upstream) (url : String)
       (with_checksum : Bool),
      env .head url = .error () →
      (check_url_details dns cfg env url with_checksum).2 = (false, [])) := by
  constructor
  · intro dns cfg env url wc h
    simp [check_url_details, h]
  · intro dns cfg env url wc h
    rw [check_url_details]
    cases hsafe : is_safe_url dns cfg url with
    | false => simp
    | true =>
      simp only [Bool.not_true, Bool.false_eq_true, if_false]
      rw [_get_result_from_url, h]

/-- C9 witness: a rejected URL with no request issued, and a transport
failure yielding the same `(false, [])`. -/
theorem C9_witness :
    (is_safe_url (fun _ _ => none) ⟨false, 5, 100⟩ "not a url" = false ∧
     check_url_details (fun _ _ => none) ⟨false, 5, 100⟩
       (fun _ _ => .ok ⟨200, [], []⟩) "not a url" false = ([], (false, []))) ∧
    ((fun (_ : Method) (_ : String) =>
        (.error () : Except Unit HttpResponse)) .head "http://example.com/x" =
      .error () ∧
     (check_url_details (fun _ _ => some ["8.8.8.8"]) ⟨false, 5, 100⟩
       (fun _ _ => .error ()) "http://example.com/x" false).2 = (false, [])) :=
  ⟨⟨by decide,
    C9_ssrf_url_reported_unavailable.1 (fun _ _ => none) ⟨false, 5, 100⟩
      (fun _ _ => .ok ⟨200, [], []⟩) "not a url" false (by decide)⟩,
   ⟨rfl,
    C9_ssrf_url_reported_unavailable.2 (fun _ _ => some ["8.8.8.8"])
      ⟨false, 5, 100⟩ (fun _ _ => .error ()) "http://example.com/x" false rfl⟩⟩

/-- C8 witness on a 3-byte body with a 2-byte chunk size, where HEAD alone
would have satisfied the headerless-probe condition. -/
theorem C8_witness :
    ((fun (_ : Method) (_ : String) => (.ok ⟨200,
        [("Content-Type", "text/plain"), ("Content-Length", "3")],
        [97, 98, 99]⟩ : Except Unit HttpResponse)) .head "http://example.com/f"
      = .ok ⟨200, [("Content-Type", "text/plain"), ("Content-Length", "3")],
        [97, 98, 99]⟩ ∧
     (200 : Nat) < 400 ∧
     0 < (⟨false, 5, 2⟩ : Config).requests_chunk_size) ∧
    _get_result_from_url (fun _ _ => .ok ⟨200,
        [("Content-Type", "text/plain"), ("Content-Length", "3")],
        [97, 98, 99]⟩) ⟨false, 5, 2⟩ "http://example.com/f" true =
      ([⟨.head, "http://example.com/f"⟩, ⟨.options, "http://example.com/f"⟩,
        ⟨.get, "http://example.com/f"⟩],
       .ok (⟨200, [("Content-Type", "text/plain"), ("Content-Length", "3")],
          [97, 98, 99]⟩,
        [("checksum", sha256Hex [97, 98, 99]), ("checksumType", "sha256")])) :=
  ⟨⟨rfl, by decide, by decide⟩,
   (C8_checksum_full_get (fun _ _ => .ok ⟨200,
       [("Content-Type", "text/plain"), ("Content-Length", "3")],
       [97, 98, 99]⟩) ⟨false, 5, 2⟩ "http://example.com/f"
     ⟨200, [("Content-Type", "text/plain"), ("Content-Length", "3")],
       [97, 98, 99]⟩
     ⟨200, [("Content-Type", "text/plain"), ("Content-Length", "3")],
       [97, 98, 99]⟩
     ⟨200, [("Content-Type", "text/plain"), ("Content-Length", "3")],
       [97, 98, 99]⟩
     rfl rfl rfl (by decide) (by decide)).1⟩

/-- C10 witness: a bare 200 response makes `/fileinfo` report
`valid = false`. -/
theorem C10_witness :
    (_get_result_from_url (fun _ _ => .ok ⟨200, [], []⟩) ⟨false, 5, 100⟩
        "http://example.com/x" false).2 = .ok (⟨200, [], []⟩, []) ∧
    (check_url_details (fun _ _ => some ["8.8.8.8"]) ⟨false, 5, 100⟩
        (fun _ _ => .ok ⟨200, [], []⟩) "http://example.com/x" false).2 =
      (false, []) :=
  ⟨rfl,
   (C10_success_requires_content_headers (fun _ _ => some ["8.8.8.8"])
     ⟨false, 5, 100⟩ (fun _ _ => .ok ⟨200, [], []⟩) "http://example.com/x"
     false ⟨200, [], []⟩ [] rfl).1 rfl rfl rfl rfl⟩
